import Mathlib

/-!
Thermostat Manager — verification of the snapshot/restore core

Shallow embedding of `src/rootfs/app/main.py` (Flask add-on "Thermostat
Manager").  The embedded core is the original-temperature snapshot/restore
state machine:

* `apply_offset`      — route `/api/apply_offset`   (main.py lines 158–216)
* `set_absolute_temperature` — route `/api/set_temperature` (lines 219–270)
* `restore`           — route `/api/restore`        (lines 273–316)
* `status`            — route `/api/status`         (lines 319–327)

Modelling choices:

* Temperatures are `ℚ` (the Python code uses floats but none of the
  verified properties depend on rounding).
* The persisted snapshot file `/data/original_temps.json` is an
  `Option Snapshot`: `none` means the file is absent
  (`load_originals` returns `None`), `some m` means the file holds the
  mapping `m`.  A Python dict preserves insertion order, so the mapping
  is an association list without duplicate keys; insertion appends.
* The external gateway `set_temperature(entity_id, temperature)` is an
  oracle `Gateway : String → ℚ → Bool` giving the success of each call.
  The Python error strings carry exception text from the outside world;
  the embedding records the failing `entity_id` in the error list (the
  claims only inspect which calls failed and how many, never the text).
* Side effects are made explicit as a trace of `Event`s in the order the
  Python code performs them: `saveSnap m` for `save_originals(m)`,
  `deleteSnap` for `delete_originals()`, and `setTemp id t` for a
  gateway `set_temperature(id, t)` call.
* Each route handler returns `(Outcome, new persisted state, trace)`.
  `Outcome.failure msg` is a `{"success": False, "error": msg}` response,
  `Outcome.success n errs` a `{"success": True, ...}` response with `n`
  devices applied/restored and `errs` the per-device error list.
-/

namespace ThermostatManager

/-- A climate entity as built by `get_climate_entities` (main.py 95–103):
`target_temperature` is attribute `temperature` and may be absent;
`min_temp` / `max_temp` default to 5 and 30 when the platform omits them. -/
structure Entity where
  entity_id : String
  name : String
  current_temperature : Option ℚ
  target_temperature : Option ℚ
  min_temp : ℚ
  max_temp : ℚ
  hvac_mode : String
  deriving DecidableEq

/-- The persisted device-id → original-target-temperature mapping
(`/data/original_temps.json`), in insertion order. -/
abbrev Snapshot := List (String × ℚ)

/-- Success oracle for the external `set_temperature` gateway call. -/
abbrev Gateway := String → ℚ → Bool

/-- An observable side effect of a route handler, in program order. -/
inductive Event where
  | saveSnap (snapshot : Snapshot) : Event
  | deleteSnap : Event
  | setTemp (entity_id : String) (temperature : ℚ) : Event
  deriving DecidableEq

/-- The JSON response of a route handler: `failure msg` is
`success: False` with an error, `success n errs` is `success: True`
with `n` devices applied/restored and per-device errors `errs`. -/
inductive Outcome where
  | failure (error : String) : Outcome
  | success (count : Nat) (errors : List String) : Outcome
  deriving DecidableEq

/-- Dictionary lookup on the snapshot (`originals[eid]` / `eid in originals`). -/
def snapLookup : Snapshot → String → Option ℚ
  | [], _ => none
  | (k, v) :: rest, d => if k = d then some v else snapLookup rest d

/-- Python truthiness of the optional `entity_ids` request field:
`None` and `[]` are falsy, so both mean "all devices". -/
def truthyIds : Option (List String) → Bool
  | none => false
  | some l => !l.isEmpty

/-- `target_entities` resolution (main.py 172–176 and 233–237):
filter to the selected ids when the selection is truthy, else all. -/
def filterTargets (entities : List Entity) (selected_ids : Option (List String)) :
    List Entity :=
  if truthyIds selected_ids then
    entities.filter (fun e => (selected_ids.getD []).contains e.entity_id)
  else entities

/-- One iteration of the snapshot-extension loop (main.py 184–186 and
244–246): if the entity has a known target temperature and its id is not
already a key, append `id ↦ current target temperature`. -/
def snapInsert (acc : Snapshot) (e : Entity) : Snapshot :=
  match e.target_temperature with
  | none => acc
  | some t =>
      if (snapLookup acc e.entity_id).isSome then acc
      else acc ++ [(e.entity_id, t)]

/-- The snapshot-extension loop shared by both adjustment routes
(main.py 184–186 and 244–246), folded over the target entities. -/
def extendOriginals (originals : Snapshot) (targets : List Entity) : Snapshot :=
  targets.foldl snapInsert originals

/-- Python's builtin `min(a, b)` on numbers. -/
def pyMin (a b : ℚ) : ℚ := if a ≤ b then a else b

/-- Python's builtin `max(a, b)` on numbers. -/
def pyMax (a b : ℚ) : ℚ := if a ≤ b then b else a

/-- `max(min_temp, min(max_temp, x))` (main.py 198 and 253). -/
def clampTemp (lo hi x : ℚ) : ℚ := pyMax lo (pyMin hi x)

/-- The device-command loop of `apply_offset` (main.py 192–204):
entities with unknown target temperature are skipped (`continue`);
otherwise the clamped `target + offset` is sent, successes are counted
and failures recorded.  Returns `(applied, errors, events)`. -/
def offsetLoop (gw : Gateway) (offset : ℚ) :
    List Entity → Nat × List String × List Event
  | [] => (0, [], [])
  | e :: rest =>
      match e.target_temperature with
      | none => offsetLoop gw offset rest
      | some t =>
          let new_temp := clampTemp e.min_temp e.max_temp (t + offset)
          let r := offsetLoop gw offset rest
          if gw e.entity_id new_temp then
            (r.1 + 1, r.2.1, Event.setTemp e.entity_id new_temp :: r.2.2)
          else
            (r.1, e.entity_id :: r.2.1,
              Event.setTemp e.entity_id new_temp :: r.2.2)

/-- The device-command loop of `set_absolute_temperature`
(main.py 252–258): every target entity is sent the clamped absolute
temperature — there is no skip for unknown target temperatures. -/
def absLoop (gw : Gateway) (temperature : ℚ) :
    List Entity → Nat × List String × List Event
  | [] => (0, [], [])
  | e :: rest =>
      let new_temp := clampTemp e.min_temp e.max_temp temperature
      let r := absLoop gw temperature rest
      if gw e.entity_id new_temp then
        (r.1 + 1, r.2.1, Event.setTemp e.entity_id new_temp :: r.2.2)
      else
        (r.1, e.entity_id :: r.2.1, Event.setTemp e.entity_id new_temp :: r.2.2)

/-- The device-command loop of `restore` (main.py 292–297): send each
stored original temperature, counting successes and recording failures. -/
def restoreLoop (gw : Gateway) :
    Snapshot → Nat × List String × List Event
  | [] => (0, [], [])
  | (eid, t) :: rest =>
      let r := restoreLoop gw rest
      if gw eid t then (r.1 + 1, r.2.1, Event.setTemp eid t :: r.2.2)
      else (r.1, eid :: r.2.1, Event.setTemp eid t :: r.2.2)

/-- Route `/api/apply_offset` (main.py 158–216).  `offsetOpt` is the
optional `offset` field of the request body: the code reads
`float(data.get("offset", 0))`, so an absent field becomes `0`.
`store` is the persisted snapshot state; `entities` is what
`get_climate_entities()` returned for this request. -/
def apply_offset (gw : Gateway) (entities : List Entity)
    (store : Option Snapshot) (offsetOpt : Option ℚ)
    (selected_ids : Option (List String)) :
    Outcome × Option Snapshot × List Event :=
  let offset := offsetOpt.getD 0
  if offset = 0 then
    (Outcome.failure "Offset darf nicht 0 sein", store, [])
  else
    let target_entities := filterTargets entities selected_ids
    if target_entities.isEmpty then
      (Outcome.failure "Keine Thermostate ausgewählt", store, [])
    else
      let originals := extendOriginals (store.getD []) target_entities
      let r := offsetLoop gw offset target_entities
      (Outcome.success r.1 r.2.1, some originals,
        Event.saveSnap originals :: r.2.2)

/-- Route `/api/set_temperature` (main.py 219–270).  `temperatureOpt` is
the optional `temperature` field; `None` is rejected.  The snapshot
extension is identical to `apply_offset`; the command loop sends the
clamped absolute value to every target entity. -/
def set_absolute_temperature (gw : Gateway) (entities : List Entity)
    (store : Option Snapshot) (temperatureOpt : Option ℚ)
    (selected_ids : Option (List String)) :
    Outcome × Option Snapshot × List Event :=
  match temperatureOpt with
  | none => (Outcome.failure "Keine Temperatur angegeben", store, [])
  | some temperature =>
      let target_entities := filterTargets entities selected_ids
      if target_entities.isEmpty then
        (Outcome.failure "Keine Thermostate ausgewählt", store, [])
      else
        let originals := extendOriginals (store.getD []) target_entities
        let r := absLoop gw temperature target_entities
        (Outcome.success r.1 r.2.1, some originals,
          Event.saveSnap originals :: r.2.2)

/-- The restore set resolution (main.py 284–287): snapshot entries
filtered to the selected ids when the selection is truthy, else all. -/
def toRestore (originals : Snapshot) (selected_ids : Option (List String)) :
    Snapshot :=
  if truthyIds selected_ids then
    originals.filter (fun p => (selected_ids.getD []).contains p.1)
  else originals

/-- Route `/api/restore` (main.py 273–316).  Loads the snapshot (absence
is the informational failure), resolves the restore set, replays the
stored originals through the gateway, and — only when the error list is
empty — pops every attempted entry and re-persists (or deletes) the
mapping; with any error the persisted mapping is left untouched.
The route never consults `get_climate_entities`. -/
def restore (gw : Gateway) (store : Option Snapshot)
    (selected_ids : Option (List String)) :
    Outcome × Option Snapshot × List Event :=
  match store with
  | none =>
      (Outcome.failure "Keine gespeicherten Originaltemperaturen vorhanden",
        none, [])
  | some originals =>
      let to_restore := toRestore originals selected_ids
      let r := restoreLoop gw to_restore
      if r.2.1.isEmpty then
        let remaining :=
          originals.filter (fun p => (snapLookup to_restore p.1).isNone)
        if remaining.isEmpty then
          (Outcome.success r.1 [], none, r.2.2 ++ [Event.deleteSnap])
        else
          (Outcome.success r.1 [], some remaining,
            r.2.2 ++ [Event.saveSnap remaining])
      else (Outcome.success r.1 r.2.1, some originals, r.2.2)

/-- Route `/api/status` (main.py 319–327): `offset_active` is
`originals is not None`, `saved_count` is `len(originals) if originals
else 0` (a falsy — empty — mapping reports 0). -/
def status (store : Option Snapshot) : Bool × Nat :=
  (store.isSome,
    match store with
    | none => 0
    | some originals => if originals.isEmpty then 0 else originals.length)

/-- Projection of a trace onto its gateway `set_temperature` calls,
in order. -/
def setTempsOf : List Event → List (String × ℚ)
  | [] => []
  | Event.setTemp i v :: rest => (i, v) :: setTempsOf rest
  | Event.saveSnap _ :: rest => setTempsOf rest
  | Event.deleteSnap :: rest => setTempsOf rest

/-! ### Concrete fixtures used by witnesses and counterexamples -/

/-- A gateway on which every `set_temperature` call succeeds. -/
def gwOk : Gateway := fun _ _ => true

/-- A gateway that fails exactly for the device id `"B"`. -/
def gwFailsB : Gateway := fun i _ => !(i == "B")

/-- A device with a known target temperature of 20 and range 5–30. -/
def entA : Entity := ⟨"A", "Living room", some 21, some 20, 5, 30, "heat"⟩

/-- A second device with a known target temperature of 18, range 5–30. -/
def entB : Entity := ⟨"B", "Bedroom", some 19, some 18, 5, 30, "heat"⟩

/-- A device whose target temperature is unknown (attribute absent). -/
def entU : Entity := ⟨"U", "Utility", none, none, 5, 30, "off"⟩

/-! ### Association-list and snapshot-extension lemmas -/

lemma snapLookup_append_of_some {l : Snapshot} {d : String} {v : ℚ}
    (h : snapLookup l d = some v) (l' : Snapshot) :
    snapLookup (l ++ l') d = some v := by
  induction l with
  | nil => simp [snapLookup] at h
  | cons p rest ih =>
      obtain ⟨k, w⟩ := p
      by_cases hk : k = d
      · simp [snapLookup, hk] at h ⊢; exact h
      · simp [snapLookup, hk] at h ⊢; exact ih h

lemma snapLookup_append_of_none {l : Snapshot} {d : String}
    (h : snapLookup l d = none) (l' : Snapshot) :
    snapLookup (l ++ l') d = snapLookup l' d := by
  induction l with
  | nil => simp
  | cons p rest ih =>
      obtain ⟨k, w⟩ := p
      by_cases hk : k = d
      · simp [snapLookup, hk] at h
      · simp [snapLookup, hk] at h ⊢; exact ih h

lemma snapInsert_target_none {e : Entity} (acc : Snapshot)
    (h : e.target_temperature = none) : snapInsert acc e = acc := by
  unfold snapInsert; rw [h]

lemma snapInsert_target_some {e : Entity} {t : ℚ} (acc : Snapshot)
    (h : e.target_temperature = some t) :
    snapInsert acc e =
      if (snapLookup acc e.entity_id).isSome then acc
      else acc ++ [(e.entity_id, t)] := by
  unfold snapInsert; rw [h]

lemma snapInsert_preserves {acc : Snapshot} {d : String} {v : ℚ}
    (e : Entity) (h : snapLookup acc d = some v) :
    snapLookup (snapInsert acc e) d = some v := by
  cases ht : e.target_temperature with
  | none => rw [snapInsert_target_none acc ht]; exact h
  | some t =>
      rw [snapInsert_target_some acc ht]
      by_cases hs : (snapLookup acc e.entity_id).isSome
      · rw [if_pos hs]; exact h
      · rw [if_neg hs]; exact snapLookup_append_of_some h _

lemma snapInsert_none_of_none {acc : Snapshot} {d : String}
    (e : Entity) (h : snapLookup (snapInsert acc e) d = none) :
    snapLookup acc d = none := by
  cases ha : snapLookup acc d with
  | none => rfl
  | some v => rw [snapInsert_preserves e ha] at h; exact absurd h (by simp)

lemma snapInsert_source {acc : Snapshot} {d : String} {v : ℚ} {e : Entity}
    (h : snapLookup (snapInsert acc e) d = some v) :
    snapLookup acc d = some v ∨
      (snapLookup acc d = none ∧ e.entity_id = d ∧
        e.target_temperature = some v) := by
  cases ht : e.target_temperature with
  | none => rw [snapInsert_target_none acc ht] at h; exact Or.inl h
  | some t =>
      rw [snapInsert_target_some acc ht] at h
      by_cases hs : (snapLookup acc e.entity_id).isSome
      · rw [if_pos hs] at h; exact Or.inl h
      · rw [if_neg hs] at h
        cases ha : snapLookup acc d with
        | some w =>
            have h2 := snapLookup_append_of_some ha [(e.entity_id, t)]
            rw [h2] at h
            exact Or.inl h
        | none =>
            rw [snapLookup_append_of_none ha] at h
            simp only [snapLookup] at h
            by_cases he : e.entity_id = d
            · rw [if_pos he] at h
              exact Or.inr ⟨rfl, he, h⟩
            · rw [if_neg he] at h; simp [snapLookup] at h

lemma snapInsert_eq_nil {acc : Snapshot} {e : Entity}
    (h : snapInsert acc e = []) :
    acc = [] ∧ e.target_temperature = none := by
  cases ht : e.target_temperature with
  | none => rw [snapInsert_target_none acc ht] at h; exact ⟨h, rfl⟩
  | some t =>
      rw [snapInsert_target_some acc ht] at h
      by_cases hs : (snapLookup acc e.entity_id).isSome
      · rw [if_pos hs] at h
        subst h; simp [snapLookup] at hs
      · rw [if_neg hs] at h
        exact absurd h (by simp)

lemma extendOriginals_cons (orig : Snapshot) (e : Entity) (ts : List Entity) :
    extendOriginals orig (e :: ts) = extendOriginals (snapInsert orig e) ts := rfl

lemma extendOriginals_preserves {d : String} {v : ℚ} :
    ∀ (ts : List Entity) (orig : Snapshot), snapLookup orig d = some v →
      snapLookup (extendOriginals orig ts) d = some v := by
  intro ts
  induction ts with
  | nil => intro orig h; exact h
  | cons e rest ih =>
      intro orig h
      rw [extendOriginals_cons]
      exact ih _ (snapInsert_preserves e h)

lemma extendOriginals_source {d : String} {v : ℚ} :
    ∀ (ts : List Entity) (orig : Snapshot),
      snapLookup (extendOriginals orig ts) d = some v →
      snapLookup orig d = some v ∨
        (snapLookup orig d = none ∧
          ∃ e, e ∈ ts ∧ e.entity_id = d ∧ e.target_temperature = some v) := by
  intro ts
  induction ts with
  | nil => intro orig h; exact Or.inl h
  | cons e rest ih =>
      intro orig h
      rw [extendOriginals_cons] at h
      rcases ih _ h with h' | ⟨hnone, e', hmem, hid, ht⟩
      · rcases snapInsert_source h' with h'' | ⟨hn, hid, ht⟩
        · exact Or.inl h''
        · exact Or.inr ⟨hn, e, List.mem_cons_self e rest, hid, ht⟩
      · exact Or.inr ⟨snapInsert_none_of_none e hnone, e',
          List.mem_cons_of_mem e hmem, hid, ht⟩

lemma extendOriginals_eq_nil :
    ∀ (ts : List Entity) (orig : Snapshot), extendOriginals orig ts = [] →
      orig = [] ∧ ∀ e ∈ ts, e.target_temperature = none := by
  intro ts
  induction ts with
  | nil => intro orig h; exact ⟨h, by simp⟩
  | cons e rest ih =>
      intro orig h
      rw [extendOriginals_cons] at h
      obtain ⟨hins, hrest⟩ := ih _ h
      obtain ⟨horig, ht⟩ := snapInsert_eq_nil hins
      refine ⟨horig, ?_⟩
      intro e' he'
      rcases List.mem_cons.mp he' with rfl | hmem
      · exact ht
      · exact hrest e' hmem

/-! ### Lemmas about the device-command loops -/

lemma clampTemp_bounds {lo hi : ℚ} (x : ℚ) (h : lo ≤ hi) :
    lo ≤ clampTemp lo hi x ∧ clampTemp lo hi x ≤ hi := by
  unfold clampTemp pyMax pyMin
  split_ifs <;> constructor <;> linarith

lemma filterTargets_subset {entities : List Entity}
    {sel : Option (List String)} {e : Entity}
    (h : e ∈ filterTargets entities sel) : e ∈ entities := by
  unfold filterTargets at h
  by_cases ht : truthyIds sel
  · rw [if_pos ht] at h; exact List.mem_of_mem_filter h
  · rw [if_neg ht] at h; exact h

lemma offsetLoop_events {gw : Gateway} {offset : ℚ} :
    ∀ (ts : List Entity) (ev : Event), ev ∈ (offsetLoop gw offset ts).2.2 →
      ∃ e, e ∈ ts ∧ ∃ t, e.target_temperature = some t ∧
        ev = Event.setTemp e.entity_id
          (clampTemp e.min_temp e.max_temp (t + offset)) := by
  intro ts
  induction ts with
  | nil => intro ev h; simp [offsetLoop] at h
  | cons e rest ih =>
      intro ev h
      unfold offsetLoop at h
      cases ht : e.target_temperature with
      | none =>
          rw [ht] at h
          obtain ⟨e', hmem, hrest⟩ := ih ev h
          exact ⟨e', List.mem_cons_of_mem e hmem, hrest⟩
      | some t =>
          rw [ht] at h
          by_cases hgw : gw e.entity_id (clampTemp e.min_temp e.max_temp (t + offset))
          all_goals simp only [hgw, if_pos, if_neg, Bool.false_eq_true,
            ite_true, ite_false, List.mem_cons] at h
          all_goals rcases h with rfl | h
          · exact ⟨e, List.mem_cons_self e rest, t, ht, rfl⟩
          · obtain ⟨e', hmem, hrest⟩ := ih ev h
            exact ⟨e', List.mem_cons_of_mem e hmem, hrest⟩
          · exact ⟨e, List.mem_cons_self e rest, t, ht, rfl⟩
          · obtain ⟨e', hmem, hrest⟩ := ih ev h
            exact ⟨e', List.mem_cons_of_mem e hmem, hrest⟩

lemma absLoop_events {gw : Gateway} {temperature : ℚ} :
    ∀ (ts : List Entity) (ev : Event), ev ∈ (absLoop gw temperature ts).2.2 →
      ∃ e, e ∈ ts ∧
        ev = Event.setTemp e.entity_id
          (clampTemp e.min_temp e.max_temp temperature) := by
  intro ts
  induction ts with
  | nil => intro ev h; simp [absLoop] at h
  | cons e rest ih =>
      intro ev h
      unfold absLoop at h
      by_cases hgw : gw e.entity_id (clampTemp e.min_temp e.max_temp temperature)
      all_goals simp only [hgw, Bool.false_eq_true, ite_true, ite_false,
        List.mem_cons] at h
      all_goals rcases h with rfl | h
      · exact ⟨e, List.mem_cons_self e rest, rfl⟩
      · obtain ⟨e', hmem, hrest⟩ := ih ev h
        exact ⟨e', List.mem_cons_of_mem e hmem, hrest⟩
      · exact ⟨e, List.mem_cons_self e rest, rfl⟩
      · obtain ⟨e', hmem, hrest⟩ := ih ev h
        exact ⟨e', List.mem_cons_of_mem e hmem, hrest⟩

lemma absLoop_setTemps {gw : Gateway} {temperature : ℚ} :
    ∀ ts : List Entity,
      setTempsOf (absLoop gw temperature ts).2.2 =
        ts.map (fun e =>
          (e.entity_id, clampTemp e.min_temp e.max_temp temperature)) := by
  intro ts
  induction ts with
  | nil => rfl
  | cons e rest ih =>
      unfold absLoop
      by_cases hgw : gw e.entity_id (clampTemp e.min_temp e.max_temp temperature)
      · simp only [hgw, ite_true, setTempsOf, List.map_cons]
        rw [ih]
      · simp only [hgw, Bool.false_eq_true, ite_false, setTempsOf, List.map_cons]
        rw [ih]

lemma absLoop_count {gw : Gateway} {temperature : ℚ} :
    ∀ ts : List Entity,
      (absLoop gw temperature ts).1 + (absLoop gw temperature ts).2.1.length =
        ts.length := by
  intro ts
  induction ts with
  | nil => rfl
  | cons e rest ih =>
      unfold absLoop
      by_cases hgw : gw e.entity_id (clampTemp e.min_temp e.max_temp temperature)
      · simp only [hgw, ite_true, List.length_cons]
        omega
      · simp only [hgw, Bool.false_eq_true, ite_false, List.length_cons]
        omega

lemma restoreLoop_setTemps {gw : Gateway} :
    ∀ l : Snapshot, setTempsOf (restoreLoop gw l).2.2 = l := by
  intro l
  induction l with
  | nil => rfl
  | cons p rest ih =>
      obtain ⟨eid, t⟩ := p
      unfold restoreLoop
      by_cases hgw : gw eid t
      · simp only [hgw, ite_true, setTempsOf]
        rw [ih]
      · simp only [hgw, Bool.false_eq_true, ite_false, setTempsOf]
        rw [ih]

lemma restoreLoop_errors_empty_iff {gw : Gateway} :
    ∀ l : Snapshot,
      (restoreLoop gw l).2.1 = [] ↔ ∀ p ∈ l, gw p.1 p.2 = true := by
  intro l
  induction l with
  | nil => simp [restoreLoop]
  | cons p rest ih =>
      obtain ⟨eid, t⟩ := p
      unfold restoreLoop
      by_cases hgw : gw eid t
      · simp only [hgw, ite_true, List.mem_cons]
        rw [ih]
        constructor
        · intro h q hq
          rcases hq with rfl | hq
          · exact hgw
          · exact h q hq
        · intro h q hq
          exact h q (Or.inr hq)
      · simp only [hgw, Bool.false_eq_true, ite_false, List.mem_cons]
        constructor
        · intro h; exact absurd h (by simp)
        · intro h
          exact absurd (h (eid, t) (Or.inl rfl)) hgw

lemma setTempsOf_append :
    ∀ l l' : List Event, setTempsOf (l ++ l') = setTempsOf l ++ setTempsOf l' := by
  intro l l'
  induction l with
  | nil => rfl
  | cons ev rest ih =>
      cases ev with
      | saveSnap m => simpa [setTempsOf] using ih
      | deleteSnap => simpa [setTempsOf] using ih
      | setTemp i v => simpa [setTempsOf] using ih

lemma toRestore_sub_originals {originals : Snapshot}
    {sel : Option (List String)} {p : String × ℚ}
    (h : p ∈ toRestore originals sel) : p ∈ originals := by
  unfold toRestore at h
  by_cases ht : truthyIds sel
  · rw [if_pos ht] at h; exact List.mem_of_mem_filter h
  · rw [if_neg ht] at h; exact h

lemma snapLookup_filter_key (f : String → Bool) :
    ∀ (l : Snapshot) (d : String),
      snapLookup (l.filter (fun q => f q.1)) d =
        if f d then snapLookup l d else none := by
  intro l
  induction l with
  | nil => intro d; simp [snapLookup]
  | cons p rest ih =>
      intro d
      obtain ⟨k, v⟩ := p
      by_cases hf : f k
      · simp only [List.filter_cons, hf, ite_true, snapLookup]
        by_cases hk : k = d
        · subst hk; simp [snapLookup, hf]
        · simp only [hk, ite_false]
          exact ih d
      · simp only [List.filter_cons, hf, Bool.false_eq_true, ite_false]
        rw [ih d]
        by_cases hk : k = d
        · subst hk; simp [snapLookup, hf]
        · simp [snapLookup, hk]

/-! ### Case analyses of the route handlers -/

lemma apply_offset_spec (gw : Gateway) (entities : List Entity)
    (store : Option Snapshot) (offsetOpt : Option ℚ)
    (sel : Option (List String)) :
    apply_offset gw entities store offsetOpt sel =
        (Outcome.failure "Offset darf nicht 0 sein", store, []) ∨
    apply_offset gw entities store offsetOpt sel =
        (Outcome.failure "Keine Thermostate ausgewählt", store, []) ∨
    (¬ offsetOpt.getD 0 = 0 ∧ ¬ (filterTargets entities sel).isEmpty = true ∧
      apply_offset gw entities store offsetOpt sel =
        (Outcome.success (offsetLoop gw (offsetOpt.getD 0) (filterTargets entities sel)).1
            (offsetLoop gw (offsetOpt.getD 0) (filterTargets entities sel)).2.1,
          some (extendOriginals (store.getD []) (filterTargets entities sel)),
          Event.saveSnap (extendOriginals (store.getD []) (filterTargets entities sel)) ::
            (offsetLoop gw (offsetOpt.getD 0) (filterTargets entities sel)).2.2)) := by
  by_cases h0 : offsetOpt.getD 0 = 0
  · exact Or.inl (by simp [apply_offset, h0])
  · by_cases he : (filterTargets entities sel).isEmpty
    · exact Or.inr (Or.inl (by simp [apply_offset, h0, he]))
    · exact Or.inr (Or.inr ⟨h0, he, by simp [apply_offset, h0, he]⟩)

lemma set_absolute_spec (gw : Gateway) (entities : List Entity)
    (store : Option Snapshot) (temperatureOpt : Option ℚ)
    (sel : Option (List String)) :
    set_absolute_temperature gw entities store temperatureOpt sel =
        (Outcome.failure "Keine Temperatur angegeben", store, []) ∨
    set_absolute_temperature gw entities store temperatureOpt sel =
        (Outcome.failure "Keine Thermostate ausgewählt", store, []) ∨
    (∃ t, temperatureOpt = some t ∧
      ¬ (filterTargets entities sel).isEmpty = true ∧
      set_absolute_temperature gw entities store temperatureOpt sel =
        (Outcome.success (absLoop gw t (filterTargets entities sel)).1
            (absLoop gw t (filterTargets entities sel)).2.1,
          some (extendOriginals (store.getD []) (filterTargets entities sel)),
          Event.saveSnap (extendOriginals (store.getD []) (filterTargets entities sel)) ::
            (absLoop gw t (filterTargets entities sel)).2.2)) := by
  cases temperatureOpt with
  | none => exact Or.inl rfl
  | some t =>
      by_cases he : (filterTargets entities sel).isEmpty
      · exact Or.inr (Or.inl (by simp [set_absolute_temperature, he]))
      · exact Or.inr (Or.inr ⟨t, rfl, he, by simp [set_absolute_temperature, he]⟩)

lemma toRestore_nil (sel : Option (List String)) : toRestore [] sel = [] := by
  unfold toRestore
  by_cases ht : truthyIds sel
  · rw [if_pos ht]; rfl
  · rw [if_neg ht]

/-! ### Claim theorems -/

/-- C7: an `applyOffset` call with offset 0 returns the zero-offset
validation failure and has no side effects: the persisted snapshot is
returned exactly as it was and the effect trace is empty, so no
`save_originals`, no `delete_originals` and no gateway
`set_temperature` call happens. -/
theorem C7_zero_offset_rejected (gw : Gateway) (entities : List Entity)
    (store : Option Snapshot) (selected_ids : Option (List String)) :
    apply_offset gw entities store (some 0) selected_ids =
      (Outcome.failure "Offset darf nicht 0 sein", store, []) := by
  simp [apply_offset]

/-- C10: a request body with no `offset` field behaves exactly like an
explicit `offset = 0` — the code reads `float(data.get("offset", 0))` —
so the request is rejected with the zero-offset validation failure,
with the snapshot unchanged and an empty effect trace. -/
theorem C10_missing_offset_is_zero (gw : Gateway) (entities : List Entity)
    (store : Option Snapshot) (selected_ids : Option (List String)) :
    apply_offset gw entities store none selected_ids =
        apply_offset gw entities store (some 0) selected_ids ∧
    apply_offset gw entities store none selected_ids =
        (Outcome.failure "Offset darf nicht 0 sein", store, []) := by
  constructor <;> simp [apply_offset]

/-- C2: neither `applyOffset` nor `applyAbsolute` ever overwrites a
snapshot entry: every device-id binding present before the call is
still present with the same value afterwards, and any binding present
afterwards either existed before or is a fresh entry (the id was not
previously present) for a targeted device with a known target
temperature, mapped to that device's pre-change target temperature. -/
theorem C2_snapshot_never_overwritten (gw : Gateway) (entities : List Entity)
    (store : Option Snapshot) (offsetOpt temperatureOpt : Option ℚ)
    (sel : Option (List String)) :
    ((∀ d v, snapLookup (store.getD []) d = some v →
        snapLookup ((apply_offset gw entities store offsetOpt sel).2.1.getD []) d
          = some v) ∧
      (∀ d v,
        snapLookup ((apply_offset gw entities store offsetOpt sel).2.1.getD []) d
            = some v →
        snapLookup (store.getD []) d = some v ∨
          (snapLookup (store.getD []) d = none ∧
            ∃ e, e ∈ filterTargets entities sel ∧ e.entity_id = d ∧
              e.target_temperature = some v))) ∧
    ((∀ d v, snapLookup (store.getD []) d = some v →
        snapLookup
          ((set_absolute_temperature gw entities store temperatureOpt sel).2.1.getD [])
          d = some v) ∧
      (∀ d v,
        snapLookup
            ((set_absolute_temperature gw entities store temperatureOpt sel).2.1.getD [])
            d = some v →
        snapLookup (store.getD []) d = some v ∨
          (snapLookup (store.getD []) d = none ∧
            ∃ e, e ∈ filterTargets entities sel ∧ e.entity_id = d ∧
              e.target_temperature = some v))) := by
  constructor
  · rcases apply_offset_spec gw entities store offsetOpt sel with h | h | ⟨_, _, h⟩ <;>
      rw [h] <;>
      exact ⟨fun d v hv => by first
          | exact hv
          | exact extendOriginals_preserves _ _ hv,
        fun d v hv => by first
          | exact Or.inl hv
          | exact extendOriginals_source _ _ hv⟩
  · rcases set_absolute_spec gw entities store temperatureOpt sel with
      h | h | ⟨t, _, _, h⟩ <;>
      rw [h] <;>
      exact ⟨fun d v hv => by first
          | exact hv
          | exact extendOriginals_preserves _ _ hv,
        fun d v hv => by first
          | exact Or.inl hv
          | exact extendOriginals_source _ _ hv⟩

/-- Witness for C2: with `{A ↦ 19}` already stored and device `A`
currently targeting 20, a further `applyOffset(+5, [A])` leaves the
stored original 19 untouched. -/
theorem C2_snapshot_never_overwritten_witness :
    snapLookup ((some [("A", (19 : ℚ))]).getD []) "A" = some 19 ∧
    snapLookup
      ((apply_offset gwOk [entA] (some [("A", 19)]) (some 5) none).2.1.getD [])
      "A" = some 19 :=
  ⟨by decide,
    (C2_snapshot_never_overwritten gwOk [entA] (some [("A", 19)]) (some 5)
      (some 21) none).1.1 "A" 19 (by decide)⟩

/-- C6: if every listed device has a well-formed range
(`min_temp ≤ max_temp`), then every temperature that `applyOffset` or
`applyAbsolute` sends to the gateway is for one of the listed devices
and lies within that device's inclusive `[min_temp, max_temp]` range,
no matter how far out of range the computed value was. -/
theorem C6_sent_values_clamped (gw : Gateway) (entities : List Entity)
    (store : Option Snapshot) (offsetOpt temperatureOpt : Option ℚ)
    (sel : Option (List String))
    (hb : ∀ e ∈ entities, e.min_temp ≤ e.max_temp) :
    (∀ i v, Event.setTemp i v ∈ (apply_offset gw entities store offsetOpt sel).2.2 →
      ∃ e, e ∈ entities ∧ i = e.entity_id ∧
        e.min_temp ≤ v ∧ v ≤ e.max_temp) ∧
    (∀ i v,
      Event.setTemp i v ∈
          (set_absolute_temperature gw entities store temperatureOpt sel).2.2 →
      ∃ e, e ∈ entities ∧ i = e.entity_id ∧
        e.min_temp ≤ v ∧ v ≤ e.max_temp) := by
  constructor
  · intro i v hv
    rcases apply_offset_spec gw entities store offsetOpt sel with h | h | ⟨_, _, h⟩ <;>
      rw [h] at hv
    · simp at hv
    · simp at hv
    · rcases List.mem_cons.mp hv with heq | hv'
      · exact absurd heq (by simp)
      · obtain ⟨e, hmem, t, _, hev⟩ := offsetLoop_events _ _ hv'
        obtain ⟨hid, hval⟩ : i = e.entity_id ∧
            v = clampTemp e.min_temp e.max_temp (t + offsetOpt.getD 0) := by
          cases hev; exact ⟨rfl, rfl⟩
        have he := filterTargets_subset hmem
        obtain ⟨h1, h2⟩ := clampTemp_bounds (t + offsetOpt.getD 0) (hb e he)
        exact ⟨e, he, hid, by rw [hval]; exact h1, by rw [hval]; exact h2⟩
  · intro i v hv
    rcases set_absolute_spec gw entities store temperatureOpt sel with
      h | h | ⟨t, _, _, h⟩ <;> rw [h] at hv
    · simp at hv
    · simp at hv
    · rcases List.mem_cons.mp hv with heq | hv'
      · exact absurd heq (by simp)
      · obtain ⟨e, hmem, hev⟩ := absLoop_events _ _ hv'
        obtain ⟨hid, hval⟩ : i = e.entity_id ∧
            v = clampTemp e.min_temp e.max_temp t := by
          cases hev; exact ⟨rfl, rfl⟩
        have he := filterTargets_subset hmem
        obtain ⟨h1, h2⟩ := clampTemp_bounds t (hb e he)
        exact ⟨e, he, hid, by rw [hval]; exact h1, by rw [hval]; exact h2⟩

/-- Witness for C6: `applyAbsolute(60)` on device `A` (range 5–30)
issues a command whose value 30 is inside `[5, 30]`. -/
theorem C6_sent_values_clamped_witness :
    (∀ e ∈ [entA], e.min_temp ≤ e.max_temp) ∧
    Event.setTemp "A" 30 ∈
      (set_absolute_temperature gwOk [entA] none (some 60) none).2.2 ∧
    (∃ e, e ∈ [entA] ∧ "A" = e.entity_id ∧
      e.min_temp ≤ (30 : ℚ) ∧ (30 : ℚ) ≤ e.max_temp) :=
  ⟨by decide, by decide,
    (C6_sent_values_clamped gwOk [entA] none (some 40) (some 60) none
      (by decide)).2 "A" 30 (by decide)⟩

/-- C8: in every `applyOffset` and `applyAbsolute` call, the snapshot
save precedes every gateway command in the effect trace: any
`setTemp` event at position `k` has a `saveSnap` event at an earlier
position `j < k`. -/
theorem C8_save_precedes_commands (gw : Gateway) (entities : List Entity)
    (store : Option Snapshot) (offsetOpt temperatureOpt : Option ℚ)
    (sel : Option (List String)) :
    (∀ (k : ℕ) (i : String) (v : ℚ),
      ((apply_offset gw entities store offsetOpt sel).2.2)[k]?
          = some (Event.setTemp i v) →
      ∃ (j : ℕ) (m : Snapshot), j < k ∧
        ((apply_offset gw entities store offsetOpt sel).2.2)[j]?
          = some (Event.saveSnap m)) ∧
    (∀ (k : ℕ) (i : String) (v : ℚ),
      ((set_absolute_temperature gw entities store temperatureOpt sel).2.2)[k]?
          = some (Event.setTemp i v) →
      ∃ (j : ℕ) (m : Snapshot), j < k ∧
        ((set_absolute_temperature gw entities store temperatureOpt sel).2.2)[j]?
          = some (Event.saveSnap m)) := by
  constructor
  · intro k i v hk
    rcases apply_offset_spec gw entities store offsetOpt sel with h | h | ⟨_, _, h⟩ <;>
      rw [h] at hk ⊢
    · simp at hk
    · simp at hk
    · cases k with
      | zero => simp at hk
      | succ k' =>
          exact ⟨0, extendOriginals (store.getD []) (filterTargets entities sel),
            Nat.succ_pos k', by simp⟩
  · intro k i v hk
    rcases set_absolute_spec gw entities store temperatureOpt sel with
      h | h | ⟨t, _, _, h⟩ <;> rw [h] at hk ⊢
    · simp at hk
    · simp at hk
    · cases k with
      | zero => simp at hk
      | succ k' =>
          exact ⟨0, extendOriginals (store.getD []) (filterTargets entities sel),
            Nat.succ_pos k', by simp⟩

/-- Witness for C8: in the trace of `applyAbsolute(60)` on device `A`,
the gateway command sits at position 1 and the snapshot save at
position 0. -/
theorem C8_save_precedes_commands_witness :
    ((set_absolute_temperature gwOk [entA] none (some 60) none).2.2)[1]?
        = some (Event.setTemp "A" 30) ∧
    (∃ (j : ℕ) (m : Snapshot), j < 1 ∧
      ((set_absolute_temperature gwOk [entA] none (some 60) none).2.2)[j]?
        = some (Event.saveSnap m)) :=
  ⟨by decide,
    (C8_save_precedes_commands gwOk [entA] none (some 5) (some 60) none).2
      1 "A" 30 (by decide)⟩

/-- C9: `restore` never consults the platform's device listing — in the
embedding its only inputs are the persisted snapshot and the requested
ids, mirroring the source, which never calls `get_climate_entities`
in the restore route — and the gateway `set_temperature` calls it
issues are exactly the selected snapshot entries, in order, each with
its stored original value.  A device absent from the platform's device
list is therefore still sent its original temperature. -/
theorem C9_restore_calls_exactly_selected_entries (gw : Gateway)
    (originals : Snapshot) (sel : Option (List String)) :
    setTempsOf (restore gw (some originals) sel).2.2
      = toRestore originals sel := by
  simp only [restore]
  by_cases herr : (restoreLoop gw (toRestore originals sel)).2.1.isEmpty = true
  · rw [if_pos herr]
    by_cases hrem :
        (originals.filter
          (fun p => (snapLookup (toRestore originals sel) p.1).isNone)).isEmpty
          = true
    · rw [if_pos hrem]
      simp [setTempsOf_append, restoreLoop_setTemps, setTempsOf]
    · rw [if_neg hrem]
      simp [setTempsOf_append, restoreLoop_setTemps, setTempsOf]
  · rw [if_neg herr]
    exact restoreLoop_setTemps _

lemma snapLookup_remaining (tr : Snapshot) (l : Snapshot) (d : String) :
    snapLookup (l.filter (fun p => (snapLookup tr p.1).isNone)) d =
      if (snapLookup tr d).isNone then snapLookup l d else none :=
  snapLookup_filter_key (fun k => (snapLookup tr k).isNone) l d

/-- Counterexample to C1: with snapshot `{A ↦ 20, B ↦ 18}` and a gateway
that succeeds for `A` but fails for `B`, `restore()` leaves the
persisted snapshot completely unchanged — `A`'s entry is *not* removed
even though its call succeeded — and status still reports
`active = true` with the count 2, not reduced by the success. -/
theorem C1_counterexample :
    (restore gwFailsB (some [("A", 20), ("B", 18)]) none).1
        = Outcome.success 1 ["B"] ∧
    (restore gwFailsB (some [("A", 20), ("B", 18)]) none).2.1
        = some [("A", 20), ("B", 18)] ∧
    status (restore gwFailsB (some [("A", 20), ("B", 18)]) none).2.1
        = (true, 2) := by
  refine ⟨by decide, by decide, by decide⟩

/-- C1 (as amended): restore removes entries from the snapshot in an
all-or-nothing way.  If any gateway call in the restore set fails,
the persisted mapping is left exactly as it was — successfully
restored entries are *not* removed.  Only when every call succeeds are
the attempted entries removed, and then exactly they are removed: an
id keeps its stored value iff it was not in the restore set. -/
theorem C1_amended_all_or_nothing_removal (gw : Gateway)
    (originals : Snapshot) (sel : Option (List String)) :
    ((¬ ∀ p ∈ toRestore originals sel, gw p.1 p.2 = true) →
      (restore gw (some originals) sel).2.1 = some originals) ∧
    ((∀ p ∈ toRestore originals sel, gw p.1 p.2 = true) →
      ∀ d, snapLookup ((restore gw (some originals) sel).2.1.getD []) d =
        if (snapLookup (toRestore originals sel) d).isSome then none
        else snapLookup originals d) := by
  constructor
  · intro hfail
    have herr : ¬ ((restoreLoop gw (toRestore originals sel)).2.1.isEmpty = true) := by
      intro h
      exact hfail ((restoreLoop_errors_empty_iff _).mp (List.isEmpty_iff.mp h))
    simp only [restore]
    rw [if_neg herr]
  · intro hall d
    have herr : ((restoreLoop gw (toRestore originals sel)).2.1.isEmpty = true) := by
      rw [(restoreLoop_errors_empty_iff _).mpr hall]
      rfl
    have hfilter := snapLookup_remaining (toRestore originals sel) originals d
    simp only [restore]
    rw [if_pos herr]
    by_cases hrem : ((originals.filter
        (fun p => (snapLookup (toRestore originals sel) p.1).isNone)).isEmpty
          = true)
    · rw [if_pos hrem]
      rw [List.isEmpty_iff.mp hrem] at hfilter
      cases htr : snapLookup (toRestore originals sel) d with
      | some w => simp [snapLookup]
      | none =>
          rw [htr] at hfilter
          simp only [Option.isNone_none, if_true] at hfilter
          simp only [Option.isSome_none, Bool.false_eq_true, if_false]
          simpa [snapLookup] using hfilter
    · rw [if_neg hrem]
      simp only [Option.getD_some]
      rw [hfilter]
      cases htr : snapLookup (toRestore originals sel) d with
      | some w => simp
      | none => simp

/-- Witness for C1 (amended): restoring only `A` out of
`{A ↦ 20, B ↦ 18}` on an always-succeeding gateway removes exactly
`A`; `B` keeps its stored original 18. -/
theorem C1_amended_all_or_nothing_removal_witness :
    (∀ p ∈ toRestore [("A", (20 : ℚ)), ("B", 18)] (some ["A"]),
      gwOk p.1 p.2 = true) ∧
    snapLookup
      ((restore gwOk (some [("A", 20), ("B", 18)]) (some ["A"])).2.1.getD [])
      "B" = some 18 ∧
    snapLookup
      ((restore gwOk (some [("A", 20), ("B", 18)]) (some ["A"])).2.1.getD [])
      "A" = none := by
  refine ⟨by decide, ?_, ?_⟩
  · have h := (C1_amended_all_or_nothing_removal gwOk
      [("A", 20), ("B", 18)] (some ["A"])).2 (by decide) "B"
    rw [h]; decide
  · have h := (C1_amended_all_or_nothing_removal gwOk
      [("A", 20), ("B", 18)] (some ["A"])).2 (by decide) "A"
    rw [h]; decide

/-- Counterexample to C3: `applyOffset(+2)` targeting only a device
with unknown target temperature, with no snapshot outstanding,
persists an *empty* snapshot record, after which status reports
`active = true` with `count = 0`. -/
theorem C3_counterexample :
    (apply_offset gwOk [entU] none (some 2) none).2.1 = some [] ∧
    status (apply_offset gwOk [entU] none (some 2) none).2.1
        = (true, 0) := by
  refine ⟨by decide, by decide⟩

/-- C3 (as amended): `restore` never leaves an existing snapshot record
with zero entries, but the adjustment routes persist the extended
mapping unconditionally: an adjustment that performed its save leaves
an empty record exactly when no snapshot entries existed before the
call and every targeted device's target temperature was unknown. -/
theorem C3_amended_snapshot_lifecycle :
    (∀ (gw : Gateway) (store : Option Snapshot) (sel : Option (List String))
        (s' : Snapshot), (restore gw store sel).2.1 = some s' → s' ≠ []) ∧
    (∀ (gw : Gateway) (entities : List Entity) (store : Option Snapshot)
        (offsetOpt : Option ℚ) (sel : Option (List String)),
      (apply_offset gw entities store offsetOpt sel).2.2 ≠ [] →
      (apply_offset gw entities store offsetOpt sel).2.1 = some [] →
      store.getD [] = [] ∧
        ∀ e ∈ filterTargets entities sel, e.target_temperature = none) ∧
    (∀ (gw : Gateway) (entities : List Entity) (store : Option Snapshot)
        (temperatureOpt : Option ℚ) (sel : Option (List String)),
      (set_absolute_temperature gw entities store temperatureOpt sel).2.2 ≠ [] →
      (set_absolute_temperature gw entities store temperatureOpt sel).2.1
          = some [] →
      store.getD [] = [] ∧
        ∀ e ∈ filterTargets entities sel, e.target_temperature = none) := by
  refine ⟨?_, ?_, ?_⟩
  · intro gw store sel s' h
    cases store with
    | none => simp [restore] at h
    | some originals =>
        simp only [restore] at h
        by_cases herr : ((restoreLoop gw (toRestore originals sel)).2.1.isEmpty
            = true)
        · rw [if_pos herr] at h
          by_cases hrem : ((originals.filter
              (fun p => (snapLookup (toRestore originals sel) p.1).isNone)).isEmpty
                = true)
          · rw [if_pos hrem] at h; simp at h
          · rw [if_neg hrem] at h
            simp only [Option.some.injEq] at h
            intro hnil
            exact hrem (by rw [h, hnil]; rfl)
        · rw [if_neg herr] at h
          simp only [Option.some.injEq] at h
          intro hnil
          apply herr
          rw [h, hnil, toRestore_nil]
          rfl
  · intro gw entities store offsetOpt sel htr h
    rcases apply_offset_spec gw entities store offsetOpt sel with
      hc | hc | ⟨_, _, hc⟩
    · rw [hc] at htr; simp at htr
    · rw [hc] at htr; simp at htr
    · rw [hc] at h
      simp only [Option.some.injEq] at h
      exact extendOriginals_eq_nil _ _ h
  · intro gw entities store temperatureOpt sel htr h
    rcases set_absolute_spec gw entities store temperatureOpt sel with
      hc | hc | ⟨t, _, _, hc⟩
    · rw [hc] at htr; simp at htr
    · rw [hc] at htr; simp at htr
    · rw [hc] at h
      simp only [Option.some.injEq] at h
      exact extendOriginals_eq_nil _ _ h

/-- Witness for C3 (amended): the `applyOffset(+2)` call on only the
unknown-target device `U` did save (non-empty trace) and yielded the
empty record, and indeed there was no prior entry and every target's
temperature was unknown. -/
theorem C3_amended_snapshot_lifecycle_witness :
    (apply_offset gwOk [entU] none (some 2) none).2.2 ≠ [] ∧
    ((none : Option Snapshot).getD [] = [] ∧
      ∀ e ∈ filterTargets [entU] none, e.target_temperature = none) :=
  ⟨by decide,
    C3_amended_snapshot_lifecycle.2.1 gwOk [entU] none (some 2) none
      (by decide) (by decide)⟩

/-- Counterexample to C4: `applyAbsolute(21)` on a device with unknown
target temperature does *not* skip it: the gateway is sent the clamped
absolute value for that device and the outcome counts it as applied
(1 applied, no errors). -/
theorem C4_counterexample :
    set_absolute_temperature gwOk [entU] none (some 21) none =
      (Outcome.success 1 [], some [],
        [Event.saveSnap [], Event.setTemp "U" 21]) := by
  decide

/-- C4 (as amended): `applyAbsolute` shares `applyOffset`'s snapshot
step, but its command loop has no unknown-target skip: it issues one
gateway call per target device — the clamped absolute value, in list
order — and every target device is tallied, so applied + errors
equals the number of target devices. -/
theorem C4_absolute_commands_every_target (gw : Gateway)
    (entities : List Entity) (store : Option Snapshot) (t : ℚ)
    (sel : Option (List String)) :
    setTempsOf (set_absolute_temperature gw entities store (some t) sel).2.2 =
      (filterTargets entities sel).map
        (fun e => (e.entity_id, clampTemp e.min_temp e.max_temp t)) ∧
    (∀ (n : ℕ) (errs : List String),
      (set_absolute_temperature gw entities store (some t) sel).1
          = Outcome.success n errs →
      n + errs.length = (filterTargets entities sel).length) := by
  by_cases he : ((filterTargets entities sel).isEmpty = true)
  · have hnil : filterTargets entities sel = [] := List.isEmpty_iff.mp he
    constructor
    · simp [set_absolute_temperature, he, hnil, setTempsOf]
    · intro n errs h
      simp [set_absolute_temperature, he] at h
  · constructor
    · simp only [set_absolute_temperature, if_neg he]
      simp only [setTempsOf]
      exact absLoop_setTemps _
    · intro n errs h
      simp only [set_absolute_temperature, if_neg he] at h
      simp only [Outcome.success.injEq] at h
      rw [← h.1, ← h.2]
      exact absLoop_count _

/-- Witness for C4 (amended): `applyAbsolute(21)` on `[U, A]` (U's
target unknown) issues exactly one call per device — including `U` —
and reports 2 applied with 0 errors out of 2 targets. -/
theorem C4_absolute_commands_every_target_witness :
    setTempsOf (set_absolute_temperature gwOk [entU, entA] none (some 21)
        none).2.2
      = (filterTargets [entU, entA] none).map
          (fun e => (e.entity_id, clampTemp e.min_temp e.max_temp 21)) ∧
    (set_absolute_temperature gwOk [entU, entA] none (some 21) none).1
        = Outcome.success 2 [] ∧
    2 + ([] : List String).length
        = (filterTargets [entU, entA] (none : Option (List String))).length :=
  ⟨(C4_absolute_commands_every_target gwOk [entU, entA] none 21 none).1,
    by decide,
    (C4_absolute_commands_every_target gwOk [entU, entA] none 21 none).2
      2 [] (by decide)⟩

/-- Counterexample to C5: with snapshot `{A ↦ 20}` and the explicit
selection `[B]` (which intersects no entry), `restore` is *not*
rejected with a "no targets" failure: it returns a success outcome
with 0 restored, and even re-persists the unchanged mapping. -/
theorem C5_counterexample :
    restore gwOk (some [("A", 20)]) (some ["B"]) =
      (Outcome.success 0 [], some [("A", 20)],
        [Event.saveSnap [("A", 20)]]) := by
  decide

/-- C5 (as amended): when a snapshot exists but an explicit selection
resolves to an empty restore set, no gateway call is issued and the
snapshot entries are unchanged, but instead of a "no targets"
rejection the route returns success with 0 restored and re-persists
the unchanged mapping. -/
theorem C5_amended_empty_restore_set (gw : Gateway) (originals : Snapshot)
    (ids : List String) (hne : originals ≠ [])
    (hempty : toRestore originals (some ids) = []) :
    restore gw (some originals) (some ids) =
      (Outcome.success 0 [], some originals,
        [Event.saveSnap originals]) := by
  simp only [restore, hempty, restoreLoop]
  simp [snapLookup, List.isEmpty_iff, hne]

/-- Witness for C5 (amended): `{A ↦ 20}` with selection `[B]`. -/
theorem C5_amended_empty_restore_set_witness :
    ([("A", (20 : ℚ))] ≠ []) ∧
    toRestore [("A", (20 : ℚ))] (some ["B"]) = [] ∧
    restore gwOk (some [("A", 20)]) (some ["B"]) =
      (Outcome.success 0 [], some [("A", 20)],
        [Event.saveSnap [("A", 20)]]) :=
  ⟨by decide, by decide,
    C5_amended_empty_restore_set gwOk [("A", 20)] ["B"]
      (by decide) (by decide)⟩

end ThermostatManager
